import Mathlib

/-!
Shallow embedding of the t_race pipeline core (TOD-theses/t_race).

The repository schedules batch work over candidate transaction pairs:
`check.py` classifies pairs (check / properties stages), `trace.py` and
`run.py` drive the trace / trace+analyze stages, `mine.py` parses block
ranges, and `timing/` provides scoped timing instrumentation.

External collaborators (the `tod_checker` replay engine, the postgres
miner, the traces analyzer, subprocess replayer, filesystem and network)
are modelled as explicit behaviour parameters: each external call site
becomes an `Except PyExn _` value describing whether that call returns
a value or raises, exactly at the granularity of the call sites in the
Python source.  Python `try`/`except` blocks are translated into matches
on those `Except` values, in the order the handlers appear in the source.
-/

/-- Python exception values that are distinguished by the embedded code.
`replayDiverged` and `insufficientEtherReplay` model the two dedicated
exception classes imported from `tod_checker`; `generic` carries `str(e)`
for any other `Exception`; `fileExists` models the `FileExistsError` of
`Path.mkdir()`; `calledProcess` models `subprocess.CalledProcessError`
raised by `subprocess.run(..., check=True)` on a non-zero exit code. -/
inductive PyExn where
  | replayDiverged
  | insufficientEtherReplay
  | generic (msg : String)
  | fileExists
  | calledProcess (exitCode : Nat)
  deriving DecidableEq

/-- Type `TODMethod` from `check.py`: the `--tod-method` choice. -/
inductive TODMethod where
  | approximation
  | overall
  deriving DecidableEq

/-- Type `TODResult` from `check.py`.  The constructors correspond, in order,
to the literal strings "TOD", "not TOD", "replay diverged",
"insufficient ether replay detected", "insufficient ether replay error"
and "error"; the mapping is injective, so counting rows by constructor
is the same as counting rows by the stored string. -/
inductive TODResult where
  | tod
  | notTod
  | replayDiverged
  | insufficientEtherDetected
  | insufficientEtherError
  | genericError
  deriving DecidableEq

/-- The CSV string that `check.py` stores for each `TODResult` value. -/
def TODResult.render : TODResult → String
  | .tod => "TOD"
  | .notTod => "not TOD"
  | .replayDiverged => "replay diverged"
  | .insufficientEtherDetected => "insufficient ether replay detected"
  | .insufficientEtherError => "insufficient ether replay error"
  | .genericError => "error"

/-- The data of a `TODCheckResult` returned by `checker.check(tx_a, tx_b)`
that `check_candidate` inspects: whether `res.tx_b_comparison.differences()`
is non-empty and whether `res.overall_comparison.differences()` is
non-empty. -/
structure TODCheckResult where
  tx_b_differences : Bool
  overall_differences : Bool
  deriving DecidableEq

/-- Structure `CheckArgs` from `check.py` (the per-item input of `check_candidate`).
The `transaction_hashes` tuple is split into its two fields. -/
structure CheckArgs where
  tx_a : String
  tx_b : String
  tod_method : TODMethod
  deriving DecidableEq

/-- Structure `CheckResult` from `check.py`.  The source stores
`id = f"tx_a_tx_b"` (underscore-joined); the driver loop immediately
splits it back with `result.id.split("_")`, and transaction hashes are
`0x`-hex strings containing no underscore, so the id is carried here as
the two hashes themselves. -/
structure CheckResult where
  tx_a : String
  tx_b : String
  result : TODResult
  details : Option TODCheckResult
  elapsed_ms : Nat
  deriving DecidableEq

/-- Predicate `startsWithSeq pat cs` is true iff `pat` is an initial segment of `cs`
(the character-list version of the Python method `str.startswith`). -/
def startsWithSeq : List Char → List Char → Bool
  | [], _ => true
  | _ :: _, [] => false
  | p :: ps, c :: cs => p == c && startsWithSeq ps cs

/-- Predicate `containsSeq pat cs` is true iff `pat` occurs contiguously in `cs`
(the character-list version of the Python test `pat in cs`). -/
def containsSeq (pat : List Char) : List Char → Bool
  | [] => startsWithSeq pat []
  | c :: cs => startsWithSeq pat (c :: cs) || containsSeq pat cs

/-- The Python method `s.lower()` on the character level. -/
def lowerString (s : String) : String :=
  String.mk (s.data.map Char.toLower)

/-- Python `str(e)` for the modelled exception values: the message text that
`check_candidate` inspects.  For `generic` it is the carried message. -/
def pyExnMessage : PyExn → String
  | .replayDiverged => "replay diverged"
  | .insufficientEtherReplay => "insufficient ether"
  | .generic msg => msg
  | .fileExists => "File exists"
  | .calledProcess code => "Command returned non-zero exit status " ++ toString code

/-- The test `"insufficient funds" in str(e).lower()` from
the generic `except Exception` branch of `check_candidate`. -/
def mentionsInsufficientFunds (e : PyExn) : Bool :=
  containsSeq "insufficient funds".data (lowerString (pyExnMessage e)).data

/-- The body of the `try:` block of `check_candidate` (check.py):
`res = checker.check(tx_a, tx_b)` followed by the method-dependent
comparison.  `beh` is the behaviour of the external `checker.check`
call: either the returned `TODCheckResult` or the exception it raises. -/
def check_candidate_attempt (beh : Except PyExn TODCheckResult) (m : TODMethod) :
    Except PyExn (TODResult × Option TODCheckResult) :=
  match beh with
  | .error e => .error e
  | .ok res =>
      match m with
      | .approximation =>
          .ok ((if res.tx_b_differences then .tod else .notTod), some res)
      | .overall =>
          .ok ((if res.overall_differences then .tod else .notTod), some res)

/-- The `except` chain of `check_candidate`, in source order:
`except ReplayDivergedException`, `except InsufficientEtherReplayException`,
`except Exception as e` (with the "insufficient funds" message test).
Every exception is handled, so the function is total. -/
def handle_check_exceptions :
    Except PyExn (TODResult × Option TODCheckResult) → TODResult × Option TODCheckResult
  | .ok x => x
  | .error .replayDiverged => (.replayDiverged, none)
  | .error .insufficientEtherReplay => (.insufficientEtherDetected, none)
  | .error e =>
      ((if mentionsInsufficientFunds e then .insufficientEtherError else .genericError), none)

/-- The value `check_candidate` returns: classification plus the retained
`res` details and the stopwatch reading (`elapsed` models the elapsed
stopwatch milliseconds, which the embedding does not compute from a clock). -/
def candidate_result (beh : Except PyExn TODCheckResult) (args : CheckArgs)
    (elapsed : Nat) : CheckResult :=
  let hr := handle_check_exceptions (check_candidate_attempt beh args.tod_method)
  ⟨args.tx_a, args.tx_b, hr.1, hr.2, elapsed⟩

/-- Function `check_candidate` from `check.py` as a worker-pool item: its result as
seen by the pool.  An `Except.error` outcome would be an exception escaping
to the pool; the `except` chain handles every exception, so the returned
value is always `.ok`. -/
def check_candidate (beh : Except PyExn TODCheckResult) (args : CheckArgs)
    (elapsed : Nat) : Except PyExn CheckResult :=
  .ok (candidate_result beh args elapsed)

/-- Modelled from the spec: the classification table of §4.4 / claim C3 in
the words of the spec — `TOD` when the selected comparison shows differences
("approximation" looks at the outcome of the second transaction, "overall" at
the combined outcome), `not TOD` when it shows none, `replay diverged` on a
diverged replay, `insufficient ether replay detected` on the dedicated
insufficient-ether exception, `insufficient ether replay error` for other
exceptions whose message indicates insufficient funds, and `error`
otherwise. -/
def spec_classification (beh : Except PyExn TODCheckResult) (m : TODMethod) : TODResult :=
  match beh with
  | .ok res =>
      if (match m with
          | .approximation => res.tx_b_differences
          | .overall => res.overall_differences)
      then .tod else .notTod
  | .error .replayDiverged => .replayDiverged
  | .error .insufficientEtherReplay => .insufficientEtherDetected
  | .error e =>
      if mentionsInsufficientFunds e then .insufficientEtherError else .genericError

/-- Modelled from the spec: the details retained alongside the verdict —
the replay data when the check returned, nothing when it raised. -/
def spec_details (beh : Except PyExn TODCheckResult) : Option TODCheckResult :=
  match beh with
  | .ok res => some res
  | .error _ => none

/-- A transaction pair `(tx_a, tx_b)`, identified by the ordered pair. -/
abbrev TxPair := String × String

/-- The parent-side consumption of `pool.imap_unordered(work, items)` used
by every stage driver: the items are handed to `work` one by one and the
parent loop consumes the results.  If a worker raises (its result is an
`Except.error`), the exception is re-raised in the parent when the result of
that item is consumed, aborting the loop; otherwise the collected results are
returned.  The consumption order is whatever order the caller passes in
(completion order is modelled by letting callers permute the item list). -/
def imap_unordered (work : α → Except PyExn β) : List α → Except PyExn (List β)
  | [] => .ok []
  | a :: rest =>
      match work a with
      | .error e => .error e
      | .ok b =>
          match imap_unordered work rest with
          | .error e => .error e
          | .ok bs => .ok (b :: bs)

/-- One row of the results CSV of the check stage: `{tx_a, tx_b, result}`
(the CSV stores `TODResult.render` of the verdict). -/
structure CsvRow where
  tx_a : String
  tx_b : String
  result : TODResult
  deriving DecidableEq

/-- One line of the details JSONL of the check stage:
`{tx_a, tx_b, details, failure}`; `failure` is the verdict string when the
verdict is not "TOD"/"not TOD", else null. -/
structure DetailLine where
  tx_a : String
  tx_b : String
  details : Option TODCheckResult
  failure : Option TODResult
  deriving DecidableEq

/-- The CSV row the check loop writes for one `CheckResult`
(from the `writer.writerow({...})` call in `check`). -/
def row_of (r : CheckResult) : CsvRow :=
  ⟨r.tx_a, r.tx_b, r.result⟩

/-- The JSONL line the check loop writes for one `CheckResult`:
`details` is `result.details.as_dict()` when present, and `failure` is set
iff `result.result not in ("TOD", "not TOD")`. -/
def detail_of (r : CheckResult) : DetailLine :=
  ⟨r.tx_a, r.tx_b, r.details,
    if r.result = TODResult.tod ∨ r.result = TODResult.notTod then none
    else some r.result⟩

/-- The parallel phase of `check` (check.py): map `check_candidate` over the
pairs with `imap_unordered` and write, for each consumed result, one CSV row
and one JSONL line.  `beh` gives the behaviour of `checker.check` per pair,
`elapsed` the stopwatch reading per pair, and `order` the order in which the
pool delivers the items (a permutation of the candidate list). -/
def check_phase (beh : TxPair → Except PyExn TODCheckResult) (m : TODMethod)
    (elapsed : TxPair → Nat) (order : List TxPair) :
    Except PyExn (List CsvRow × List DetailLine) :=
  match imap_unordered
      (fun p => check_candidate (beh p) ⟨p.1, p.2, m⟩ (elapsed p)) order with
  | .error e => .error e
  | .ok results => .ok (results.map row_of, results.map detail_of)

/-- The files produced by the check phase (empty on the abort path, which
the theorems show is never taken). -/
def check_phase_outputs (beh : TxPair → Except PyExn TODCheckResult) (m : TODMethod)
    (elapsed : TxPair → Nat) (order : List TxPair) :
    List CsvRow × List DetailLine :=
  match check_phase beh m elapsed order with
  | .ok out => out
  | .error _ => ([], [])

/-- The CSV row produced for a given pair (independent of stopwatch time,
which the row does not contain). -/
def check_row (beh : TxPair → Except PyExn TODCheckResult) (m : TODMethod)
    (p : TxPair) : CsvRow :=
  row_of (candidate_result (beh p) ⟨p.1, p.2, m⟩ 0)

/-- The JSONL line produced for a given pair (independent of stopwatch
time, which the line does not contain). -/
def check_detail (beh : TxPair → Except PyExn TODCheckResult) (m : TODMethod)
    (p : TxPair) : DetailLine :=
  detail_of (candidate_result (beh p) ⟨p.1, p.2, m⟩ 0)

/-- The fields of a `GainAndLossResult` (external `tod_checker` record) that
the properties CSV row reads: `["properties"]["attacker_gain_and_victim_loss"]`. -/
structure GainAndLossResult where
  attacker_gain_and_victim_loss : Bool
  deriving DecidableEq

/-- The fields of a `SecurifyCheckResult` that the properties CSV row reads:
`["properties"]["TOD_Transfer" / "TOD_Amount" / "TOD_Receiver"]`. -/
structure SecurifyCheckResult where
  TOD_Transfer : Bool
  TOD_Amount : Bool
  TOD_Receiver : Bool
  deriving DecidableEq

/-- The field of an `ERC20ApprovalCheckResult` that the properties CSV row
reads: `["properties"]["approve_after_transfer"]`. -/
structure ERC20ApprovalCheckResult where
  approve_after_transfer : Bool
  deriving DecidableEq

/-- The behaviour of the external calls made inside the `try:` block of
`check_candidate_properties` (check.py), in source order.  `setup` covers
the tracer construction, `js_trace_scenarios`, `process_traces` and the two
`get_transaction` lookups (everything before the first property check);
each remaining field is one property-check call, in the order the source
assigns them: gain/loss approximation, gain/loss, securify for tx_a,
securify for tx_b, ERC-20 approval. -/
structure PropBehavior where
  setup : Except PyExn Unit
  gain_and_loss_approx : Except PyExn GainAndLossResult
  gain_and_loss : Except PyExn GainAndLossResult
  securify_tx_a : Except PyExn SecurifyCheckResult
  securify_tx_b : Except PyExn SecurifyCheckResult
  erc20_approval : Except PyExn ERC20ApprovalCheckResult

/-- Structure `CheckPropertiesResult` from `check.py`: the per-item result of
`check_candidate_properties`; the five sub-results are `None` until
assigned, and `error` holds the caught exception if one was raised. -/
structure CheckPropertiesResult where
  tx_a : String
  tx_b : String
  error : Option PyExn
  gain_and_loss : Option GainAndLossResult
  gain_and_loss_approximation : Option GainAndLossResult
  securify_tx_a : Option SecurifyCheckResult
  securify_tx_b : Option SecurifyCheckResult
  erc20_approval : Option ERC20ApprovalCheckResult
  elapsed_ms : Nat
  deriving DecidableEq

/-- The value `check_candidate_properties` returns: the `try:` block runs
the external calls in order, keeping every sub-result assigned before the
first raise; `except Exception as e` stores the exception in `error`. -/
def candidate_properties_result (beh : PropBehavior) (tx_a tx_b : String)
    (elapsed : Nat) : CheckPropertiesResult :=
  match beh.setup with
  | .error e => ⟨tx_a, tx_b, some e, none, none, none, none, none, elapsed⟩
  | .ok _ =>
    match beh.gain_and_loss_approx with
    | .error e => ⟨tx_a, tx_b, some e, none, none, none, none, none, elapsed⟩
    | .ok gla =>
      match beh.gain_and_loss with
      | .error e => ⟨tx_a, tx_b, some e, none, some gla, none, none, none, elapsed⟩
      | .ok gl =>
        match beh.securify_tx_a with
        | .error e => ⟨tx_a, tx_b, some e, some gl, some gla, none, none, none, elapsed⟩
        | .ok sa =>
          match beh.securify_tx_b with
          | .error e => ⟨tx_a, tx_b, some e, some gl, some gla, some sa, none, none, elapsed⟩
          | .ok sb =>
            match beh.erc20_approval with
            | .error e =>
                ⟨tx_a, tx_b, some e, some gl, some gla, some sa, some sb, none, elapsed⟩
            | .ok ap =>
                ⟨tx_a, tx_b, none, some gl, some gla, some sa, some sb, some ap, elapsed⟩

/-- Function `check_candidate_properties` from `check.py` as a worker-pool item; the
`try`/`except Exception` covers the whole body, so the pool always receives
a `.ok` result. -/
def check_candidate_properties (beh : PropBehavior) (tx_a tx_b : String)
    (elapsed : Nat) : Except PyExn CheckPropertiesResult :=
  .ok (candidate_properties_result beh tx_a tx_b elapsed)

/-- The first exception raised along the executed path of the `try:` block
of `check_candidate_properties` (`none` if the body completes). -/
def prop_first_error (beh : PropBehavior) : Option PyExn :=
  match beh.setup with
  | .error e => some e
  | .ok _ =>
    match beh.gain_and_loss_approx with
    | .error e => some e
    | .ok _ =>
      match beh.gain_and_loss with
      | .error e => some e
      | .ok _ =>
        match beh.securify_tx_a with
        | .error e => some e
        | .ok _ =>
          match beh.securify_tx_b with
          | .error e => some e
          | .ok _ =>
            match beh.erc20_approval with
            | .error e => some e
            | .ok _ => none

/-- One row of the properties CSV (check_properties in check.py). -/
structure PropRow where
  tx_a : String
  tx_b : String
  attacker_gain_and_victim_loss : Bool
  attacker_gain_and_victim_loss_approximation : Bool
  tod_transfer : Bool
  tod_amount : Bool
  tod_receiver : Bool
  erc20_approval : Bool
  deriving DecidableEq

/-- The `details` object of a properties JSONL line (set only when all five
sub-results are present; note the source includes `gain_and_loss` but not
the approximation variant). -/
structure PropDetails where
  gain_and_loss : GainAndLossResult
  securify_tx_a : SecurifyCheckResult
  securify_tx_b : SecurifyCheckResult
  erc20_approval : ERC20ApprovalCheckResult
  deriving DecidableEq

/-- One line of the properties JSONL: `{tx_a, tx_b, details, failure}`. -/
structure PropDetailLine where
  tx_a : String
  tx_b : String
  details : Option PropDetails
  failure : Option PyExn
  deriving DecidableEq

/-- The CSV row the properties loop writes for one result — written only
when all five sub-results are present (the `if result.gain_and_loss and ...`
guard; the external result records are non-empty dicts, so Python
truthiness coincides with presence). -/
def prop_row_of (r : CheckPropertiesResult) : Option PropRow :=
  match r.gain_and_loss, r.gain_and_loss_approximation, r.securify_tx_a,
      r.securify_tx_b, r.erc20_approval with
  | some gl, some gla, some sa, some sb, some ap =>
      some ⟨r.tx_a, r.tx_b,
        gl.attacker_gain_and_victim_loss,
        gla.attacker_gain_and_victim_loss,
        sa.TOD_Transfer || sb.TOD_Transfer,
        sa.TOD_Amount || sb.TOD_Amount,
        sa.TOD_Receiver || sb.TOD_Receiver,
        ap.approve_after_transfer⟩
  | _, _, _, _, _ => none

/-- The JSONL line the properties loop always writes for one result:
`details` is populated only under the same all-five guard, `failure`
carries the formatted exception when `result.error` is set. -/
def prop_detail_of (r : CheckPropertiesResult) : PropDetailLine :=
  let details :=
    match r.gain_and_loss, r.gain_and_loss_approximation, r.securify_tx_a,
        r.securify_tx_b, r.erc20_approval with
    | some gl, some _, some sa, some sb, some ap => some (⟨gl, sa, sb, ap⟩ : PropDetails)
    | _, _, _, _, _ => none
  ⟨r.tx_a, r.tx_b, details, r.error⟩

/-- The loop of `check_properties` (check.py): map
`check_candidate_properties` over the TOD pairs with `imap_unordered`; each
consumed result contributes its optional CSV row and its always-written
JSONL line. -/
def properties_phase (beh : TxPair → PropBehavior) (elapsed : TxPair → Nat)
    (order : List TxPair) : Except PyExn (List PropRow × List PropDetailLine) :=
  match imap_unordered
      (fun p => check_candidate_properties (beh p) p.1 p.2 (elapsed p)) order with
  | .error e => .error e
  | .ok results => .ok (results.filterMap prop_row_of, results.map prop_detail_of)

/-- The files produced by the properties phase. -/
def properties_outputs (beh : TxPair → PropBehavior) (elapsed : TxPair → Nat)
    (order : List TxPair) : List PropRow × List PropDetailLine :=
  match properties_phase beh elapsed order with
  | .ok out => out
  | .error _ => ([], [])

/-- The behaviour of the external calls inside `create_trace` (trace.py):
`args.traces_dir.mkdir()` (raises `FileExistsError` if the directory
exists) and `run_replayer` (`subprocess.run(..., check=True)`, raising
`CalledProcessError` on a non-zero exit). -/
structure TraceBehavior where
  mkdir_result : Except PyExn Unit
  replayer_result : Except PyExn Unit

/-- Structure `TraceResult` from `trace.py`. -/
structure TraceResult where
  id : String
  elapsed_ms : Nat
  deriving DecidableEq

/-- Function `create_trace` from `trace.py` as a worker-pool item.  The body has no
`try`/`except`: a raise from `mkdir` or from the replayer subprocess
escapes to the pool (`StopWatch.__exit__` returns `False` and does not
suppress it). -/
def create_trace (beh : TraceBehavior) (tx_a tx_b : String) (elapsed : Nat) :
    Except PyExn TraceResult :=
  match beh.mkdir_result with
  | .error e => .error e
  | .ok _ =>
      match beh.replayer_result with
      | .error e => .error e
      | .ok _ => .ok ⟨tx_a ++ "_" ++ tx_b, elapsed⟩

/-- The behaviour of the external calls inside `trace_analyze` (run.py):
the trace phase (`download_data_*`, `get_transaction`,
`trace_both_scenarios`) and the analyze phase (`InMemoryLoader`,
`analyze_attack`, `save_evaluations`), each wrapped in its own
`try`/`except Exception`. -/
structure TraceAnalyzeBehavior where
  trace_phase : Except PyExn Unit
  analyze_phase : Except PyExn Unit

/-- Structure `TraceAnalyzeResult` from `run.py`. -/
structure TraceAnalyzeResult where
  id : String
  error_trace : Bool
  error_analyze : Bool
  ms_trace : Nat
  ms_analyze : Nat
  deriving DecidableEq

/-- The value `trace_analyze` returns: a trace-phase exception short-circuits
with `ms_analyze = 0`; an analyze-phase exception is recorded in
`error_analyze`; the exceptions of both phases are caught. -/
def trace_analyze_result (beh : TraceAnalyzeBehavior) (tx_a tx_b : String)
    (msTrace msAnalyze : Nat) : TraceAnalyzeResult :=
  match beh.trace_phase with
  | .error _ => ⟨tx_a ++ "_" ++ tx_b, true, false, msTrace, 0⟩
  | .ok _ =>
      match beh.analyze_phase with
      | .error _ => ⟨tx_a ++ "_" ++ tx_b, false, true, msTrace, msAnalyze⟩
      | .ok _ => ⟨tx_a ++ "_" ++ tx_b, false, false, msTrace, msAnalyze⟩

/-- Function `trace_analyze` from `run.py` as a worker-pool item; both phases catch
`Exception`, so the pool always receives a `.ok` result. -/
def trace_analyze (beh : TraceAnalyzeBehavior) (tx_a tx_b : String)
    (msTrace msAnalyze : Nat) : Except PyExn TraceAnalyzeResult :=
  .ok (trace_analyze_result beh tx_a tx_b msTrace msAnalyze)

/-- One row of the timings CSV (`("type", component, step, elapsed_ms)`
header written by `TimeTracker.__enter__`). -/
structure TimingRow where
  rtype : String
  component : String
  step : String
  elapsed_ms : Nat
  deriving DecidableEq

/-- The state of an entered `TimeTracker` (timing/time_tracker.py): the rows
written to its CSV so far, in order (the writer appends and flushes per
row). -/
structure TimeTrackerState where
  rows : List TimingRow
  deriving DecidableEq

/-- Method `TimeTracker.save_time_step_ms`: appends one `("step", c, s, ms)` row. -/
def save_time_step_ms (t : TimeTrackerState) (component step : String)
    (elapsed : Nat) : TimeTrackerState :=
  ⟨t.rows ++ [⟨"step", component, step, elapsed⟩]⟩

/-- Method `TimeTracker.save_time_component_ms`: appends one
`("component", c, "", ms)` row. -/
def save_time_component_ms (t : TimeTrackerState) (component : String)
    (elapsed : Nat) : TimeTrackerState :=
  ⟨t.rows ++ [⟨"component", component, "", elapsed⟩]⟩

/-- Scope `with time_tracker.step(component, step): body` —
`TimeTrackerWatchStep.__enter__` starts the stopwatch; `__exit__` is called
on both normal and exceptional exit, reads the stopwatch (`elapsed` models
the measured milliseconds), appends exactly one row, and returns `False`,
so the outcome of the body (value or exception) is passed through unchanged. -/
def with_step_scope (t : TimeTrackerState) (component step : String)
    (elapsed : Nat) (body : Except PyExn α) : Except PyExn α × TimeTrackerState :=
  (body, save_time_step_ms t component step elapsed)

/-- Scope `with time_tracker.component(component): body` — as `with_step_scope`,
via `TimeTrackerWatchComponent.__exit__`. -/
def with_component_scope (t : TimeTrackerState) (component : String)
    (elapsed : Nat) (body : Except PyExn α) : Except PyExn α × TimeTrackerState :=
  (body, save_time_component_ms t component elapsed)

/-- Structure `BlockRange` from `mine.py` (`end` is a Lean keyword, hence `end_`). -/
structure BlockRange where
  start : Nat
  end_ : Nat
  deriving DecidableEq

/-- The value of a decimal digit character, if it is one. -/
def decDigitValue (c : Char) : Option Nat :=
  if c.isDigit then some (c.toNat - 48) else none

/-- The value of a hexadecimal digit character, if it is one. -/
def hexDigitValue (c : Char) : Option Nat :=
  if c.isDigit then some (c.toNat - 48)
  else if 'a' ≤ c ∧ c ≤ 'f' then some (c.toNat - 87)
  else if 'A' ≤ c ∧ c ≤ 'F' then some (c.toNat - 55)
  else none

/-- Fold a digit list into a number in the given base; `none` as soon as a
character is not a digit of the base. -/
def digitsToNat (dv : Char → Option Nat) (base : Nat) (cs : List Char) : Option Nat :=
  cs.foldl
    (fun acc c =>
      match acc, dv c with
      | some a, some d => some (a * base + d)
      | _, _ => none)
    (some 0)

/-- The Python method `s.split(sep)` for a one-character separator, on the
character level: splits at every occurrence, keeping empty parts
(`"a--b".split("-") == ["a", "", "b"]`). -/
def splitOnChar (sep : Char) : List Char → List (List Char)
  | [] => [[]]
  | c :: cs =>
    let rest := splitOnChar sep cs
    if c == sep then [] :: rest
    else
      match rest with
      | [] => [[c]]
      | r :: rs => (c :: r) :: rs

/-- Python `int(s)` for the strings reachable here (no sign — the parts of
a `"-"`-split contain no `-`): non-empty all-decimal-digit strings. -/
def py_int_dec (cs : List Char) : Option Nat :=
  if cs.isEmpty then none else digitsToNat decDigitValue 10 cs

/-- Python `int(s, 16)` for the strings reachable here: an optional
`0x`/`0X` prefix followed by a non-empty hex-digit string. -/
def py_int_hex (cs0 : List Char) : Option Nat :=
  let cs :=
    if startsWithSeq ['0', 'x'] cs0 || startsWithSeq ['0', 'X'] cs0
    then cs0.drop 2 else cs0
  if cs.isEmpty then none else digitsToNat hexDigitValue 16 cs

/-- One side of the range: `int(part) if "0x" not in part else int(part, 16)`
from `block_range_type` (`"0x" in part` is a substring test). -/
def py_int_bound (cs : List Char) : Option Nat :=
  if containsSeq ['0', 'x'] cs then py_int_hex cs else py_int_dec cs

/-- The body of `block_range_type` after the split: parse both bounds (a
`ValueError` from `int` becomes the format error), then reject
`start > end` with the dedicated `ArgumentTypeError` message — that raise
is an `ArgumentTypeError`, not a `ValueError`, so the `except ValueError`
around it does not catch it. -/
def parse_bounds (s e : List Char) : Except String BlockRange :=
  match py_int_bound s, py_int_bound e with
  | some a, some b =>
      if a > b then .error "Invalid block range: start may not be higher than end"
      else .ok ⟨a, b⟩
  | _, _ => .error "Invalid block range format"

/-- Function `block_range_type` from `mine.py`: split on `-`, require exactly two
parts (a failed unpack is a `ValueError`, reported as the format error),
then parse and validate the bounds. -/
def block_range_type (input : String) : Except String BlockRange :=
  match splitOnChar '-' input.data with
  | [s, e] => parse_bounds s e
  | _ => .error "Invalid block range format"

/-- The externally observable actions of the `check` stage driver
(check.py `check`): fetching one transaction, fetching the state of one block
changes, and checking one pair in the parallel phase. -/
inductive CheckEv where
  | downloadTx (h : String)
  | fetchBlock (b : Nat)
  | checkPair (tx_a tx_b : String)
  deriving DecidableEq

/-- Whether an event belongs to the parallel checking phase. -/
def CheckEv.isCheckPhase : CheckEv → Bool
  | .checkPair _ _ => true
  | _ => false

/-- Python `flatten(transaction_pairs)`: the transaction hashes of all pairs, in
pair order (`tx_a` then `tx_b` per pair). -/
def flatten_pairs (pairs : List TxPair) : List String :=
  pairs.flatMap (fun p => [p.1, p.2])

/-- The prefetch pass of `check` (check.py): iterate over
`set(flatten(transaction_pairs))` calling `download_data_for_transaction`
(which returns the owning block, collected into the `blocks` set), then
iterate over `blocks` calling `download_data_for_block`.  Python sets are
modelled as `List.dedup` of the collected lists; `blockOf` is the
deterministic owning-block mapping of the RPC data. -/
def prefetch_events (blockOf : String → Nat) (pairs : List TxPair) : List CheckEv :=
  let txs := (flatten_pairs pairs).dedup
  let blocks := (txs.map blockOf).dedup
  txs.map CheckEv.downloadTx ++ blocks.map CheckEv.fetchBlock

/-- The full action sequence of the `check` stage driver: the prefetch pass
runs to completion, then the thread pool works through the pairs (in an
arbitrary completion order `order`). -/
def check_stage_events (blockOf : String → Nat) (pairs : List TxPair)
    (order : List TxPair) : List CheckEv :=
  prefetch_events blockOf pairs ++ order.map (fun p => CheckEv.checkPair p.1 p.2)

/-- The stages the chained `run` command can touch (`properties` appears
only in the description of the spec, for comparison). -/
inductive StageName where
  | mine
  | check
  | traceAnalyze
  | properties
  | stats
  deriving DecidableEq

/-- The externally observable actions of `run_command` (run.py): entering a
stage, calling `create_checker` (ids number the calls in order), and a
stage using a checker instance. -/
inductive RunEv where
  | beginStage (s : StageName)
  | createChecker (id : Nat)
  | useChecker (stage : StageName) (id : Nat)
  deriving DecidableEq

/-- The per-item actions of the `trace_analyze` pool (run.py
`run_trace_analyze`): the `trace_analyze` body of every item starts with
`checker = create_checker(args.provider)` and uses that fresh instance. -/
def trace_analyze_pool_events (firstId : Nat) : List TxPair → List RunEv
  | [] => []
  | _ :: rest =>
      RunEv.createChecker firstId :: RunEv.useChecker .traceAnalyze firstId ::
        trace_analyze_pool_events (firstId + 1) rest

/-- Function `run_command` from `run.py`: `run_mining`, then
`checker = create_checker(args.provider)` (id 0), then `run_check` with
that checker, then `run_trace_analyze` (whose pool items each create their
own checker), then `process_stats`. -/
def run_command_events (tods : List TxPair) : List RunEv :=
  [RunEv.beginStage .mine]
    ++ [RunEv.createChecker 0]
    ++ [RunEv.beginStage .check, RunEv.useChecker .check 0]
    ++ [RunEv.beginStage .traceAnalyze]
    ++ trace_analyze_pool_events 1 tods
    ++ [RunEv.beginStage .stats]

/-- Project the stage markers out of a run event stream. -/
def stage_of : RunEv → Option StageName
  | .beginStage s => some s
  | _ => none

/-- Whether a run event is a `create_checker` call. -/
def is_create_checker : RunEv → Bool
  | .createChecker _ => true
  | _ => false

/-- The checker id used by a `trace_analyze` pool item, if the event is such
a use. -/
def trace_use_id : RunEv → Option Nat
  | .useChecker .traceAnalyze id => some id
  | _ => none

/-- A `PropBehavior` in which everything up to and including the securify
checks succeeds and the ERC-20 approval check raises — the specified
"ERC-20 approval check throws" scenario. -/
def erc20_failure_behavior : PropBehavior :=
  ⟨.ok (), .ok ⟨true⟩, .ok ⟨false⟩, .ok ⟨false, false, false⟩,
    .ok ⟨false, false, false⟩, .error (.generic "erc20 approval check failed")⟩

/-- Mapping `imap_unordered` over a work function that never raises collects the
result of every item, in order. -/
theorem imap_unordered_ok (f : α → β) (l : List α) :
    imap_unordered (fun a => (Except.ok (f a) : Except PyExn β)) l = .ok (l.map f) := by
  induction l with
  | nil => rfl
  | cons a rest ih => simp [imap_unordered, ih]

/-- The check phase never aborts and writes exactly the per-pair row and
detail line for each pair, in the order the pool delivers them. -/
theorem check_phase_eq (beh : TxPair → Except PyExn TODCheckResult) (m : TODMethod)
    (elapsed : TxPair → Nat) (order : List TxPair) :
    check_phase beh m elapsed order =
      .ok (order.map (check_row beh m), order.map (check_detail beh m)) := by
  have h := imap_unordered_ok
    (fun p => candidate_result (beh p) ⟨p.1, p.2, m⟩ (elapsed p)) order
  have hw : (fun p => check_candidate (beh p) ⟨p.1, p.2, m⟩ (elapsed p)) =
      (fun p => (Except.ok (candidate_result (beh p) ⟨p.1, p.2, m⟩ (elapsed p)) :
        Except PyExn CheckResult)) := rfl
  simp only [check_phase, hw, h]
  rw [List.map_map, List.map_map]
  have h1 : row_of ∘ (fun p : TxPair => candidate_result (beh p) ⟨p.1, p.2, m⟩ (elapsed p)) =
      check_row beh m := funext fun p => rfl
  have h2 : detail_of ∘ (fun p : TxPair => candidate_result (beh p) ⟨p.1, p.2, m⟩ (elapsed p)) =
      check_detail beh m := funext fun p => rfl
  rw [h1, h2]

/-- C3: for every candidate pair, `check_candidate` classifies it into
exactly one of the six results, following the classification table of the spec:
`TOD` iff the selected comparison (second transaction for "approximation",
combined outcome for "overall") shows differences, `not TOD` when it shows
none, `replay diverged` on `ReplayDivergedException`,
`insufficient ether replay detected` on `InsufficientEtherReplayException`,
`insufficient ether replay error` for other exceptions mentioning
insufficient funds, and `error` otherwise. -/
theorem c3_classification (beh : Except PyExn TODCheckResult) (args : CheckArgs)
    (elapsed : Nat) :
    check_candidate beh args elapsed =
      .ok ⟨args.tx_a, args.tx_b, spec_classification beh args.tod_method,
        spec_details beh, elapsed⟩ := by
  cases beh with
  | ok res =>
      cases hm : args.tod_method <;>
        simp [check_candidate, candidate_result, check_candidate_attempt,
          handle_check_exceptions, spec_classification, spec_details, hm]
  | error e =>
      cases e <;>
        simp [check_candidate, candidate_result, check_candidate_attempt,
          handle_check_exceptions, spec_classification, spec_details]

/-- The properties phase never aborts; it writes one JSONL line per
consumed result and a CSV row exactly for those results that pass the
all-five guard. -/
theorem properties_phase_eq (behs : TxPair → PropBehavior) (els : TxPair → Nat)
    (order : List TxPair) :
    properties_phase behs els order =
      .ok ((order.map fun p => candidate_properties_result (behs p) p.1 p.2 (els p)).filterMap
            prop_row_of,
          (order.map fun p => candidate_properties_result (behs p) p.1 p.2 (els p)).map
            prop_detail_of) := by
  have h := imap_unordered_ok
    (fun p => candidate_properties_result (behs p) p.1 p.2 (els p)) order
  have hw : (fun p => check_candidate_properties (behs p) p.1 p.2 (els p)) =
      (fun p => (Except.ok (candidate_properties_result (behs p) p.1 p.2 (els p)) :
        Except PyExn CheckPropertiesResult)) := rfl
  simp only [properties_phase, hw, h]

/-- C1 (amended): any exception raised inside `check_candidate`,
`check_candidate_properties` or `trace_analyze` is caught at the per-item
boundary and converted into a failure outcome, so it never reaches the
worker pool, and the Check and Properties batch loops complete for every
item.  (`create_trace` is excluded: it has no per-item handler — see the
counterexample.) -/
theorem c1_amended_isolation :
    (∀ (beh : Except PyExn TODCheckResult) (args : CheckArgs) (ms : Nat),
        (check_candidate beh args ms).isOk = true) ∧
    (∀ (beh : PropBehavior) (a b : String) (ms : Nat),
        (check_candidate_properties beh a b ms).isOk = true) ∧
    (∀ (beh : TraceAnalyzeBehavior) (a b : String) (msT msA : Nat),
        (trace_analyze beh a b msT msA).isOk = true) ∧
    (∀ (beh : TxPair → Except PyExn TODCheckResult) (m : TODMethod)
        (els : TxPair → Nat) (order : List TxPair),
        (check_phase beh m els order).isOk = true) ∧
    (∀ (behs : TxPair → PropBehavior) (els : TxPair → Nat) (order : List TxPair),
        (properties_phase behs els order).isOk = true) := by
  refine ⟨fun _ _ _ => rfl, fun _ _ _ _ => rfl, fun _ _ _ _ _ => rfl, ?_, ?_⟩
  · intro beh m els order
    rw [check_phase_eq]
    rfl
  · intro behs els order
    rw [properties_phase_eq]
    rfl

/-- C1 (counterexample to the claim as stated): `create_trace` has no
per-item exception boundary — when the replayer subprocess exits non-zero,
`subprocess.run(..., check=True)` raises and the exception escapes the
work function into the pool. -/
theorem c1_claim_counterexample :
    (create_trace ⟨Except.ok (), Except.error (PyExn.calledProcess 1)⟩
      "0xa" "0xb" 5).isOk = false := rfl

/-- C2: for every input list of N candidate pairs, the check stage
produces exactly N results — one results-CSV row and one details-JSONL
line per pair — no matter in which order the pool completes them; no pair
is dropped, retried or duplicated (row and line counts per pair equal the
multiplicity of the pair in the input). -/
theorem c2_exactly_one_row_per_pair (pairs order : List TxPair)
    (beh : TxPair → Except PyExn TODCheckResult) (m : TODMethod)
    (elapsed : TxPair → Nat) (h : order.Perm pairs) :
    (check_phase beh m elapsed order).isOk = true ∧
    (check_phase_outputs beh m elapsed order).1.length = pairs.length ∧
    (check_phase_outputs beh m elapsed order).2.length = pairs.length ∧
    ((check_phase_outputs beh m elapsed order).1).Perm (pairs.map (check_row beh m)) ∧
    ((check_phase_outputs beh m elapsed order).2).Perm (pairs.map (check_detail beh m)) := by
  have he := check_phase_eq beh m elapsed order
  have houts : check_phase_outputs beh m elapsed order =
      (order.map (check_row beh m), order.map (check_detail beh m)) := by
    simp [check_phase_outputs, he]
  refine ⟨by rw [he]; rfl, ?_, ?_, ?_, ?_⟩
  · rw [houts]; simpa using h.length_eq
  · rw [houts]; simpa using h.length_eq
  · rw [houts]; exact h.map (check_row beh m)
  · rw [houts]; exact h.map (check_detail beh m)

/-- C2 witness at a concrete input: two pairs delivered in reversed
completion order still give two CSV rows. -/
theorem c2_witness :
    (check_phase_outputs (fun _ => Except.ok ⟨true, false⟩) TODMethod.overall
      (fun _ => 0) [("0xc", "0xd"), ("0xa", "0xb")]).1.length = 2 :=
  (c2_exactly_one_row_per_pair [("0xa", "0xb"), ("0xc", "0xd")]
    [("0xc", "0xd"), ("0xa", "0xb")] (fun _ => Except.ok ⟨true, false⟩)
    TODMethod.overall (fun _ => 0) (by decide)).2.1

/-- C7: running the check stage twice over the same candidate list against
the same (deterministic) checker yields the same verdicts — the two row
multisets are permutations of each other and the row of each pair occurs equally
often in both runs — even when the completion orders of the two runs (and
stopwatch readings) differ. -/
theorem c7_rerun_same_verdicts (pairs o1 o2 : List TxPair)
    (beh : TxPair → Except PyExn TODCheckResult) (m : TODMethod)
    (e1 e2 : TxPair → Nat) (h1 : o1.Perm pairs) (h2 : o2.Perm pairs) :
    ((check_phase_outputs beh m e1 o1).1).Perm ((check_phase_outputs beh m e2 o2).1) ∧
    (∀ p, ((check_phase_outputs beh m e1 o1).1).count (check_row beh m p) =
      ((check_phase_outputs beh m e2 o2).1).count (check_row beh m p)) := by
  have ha : check_phase_outputs beh m e1 o1 =
      (o1.map (check_row beh m), o1.map (check_detail beh m)) := by
    simp [check_phase_outputs, check_phase_eq]
  have hb : check_phase_outputs beh m e2 o2 =
      (o2.map (check_row beh m), o2.map (check_detail beh m)) := by
    simp [check_phase_outputs, check_phase_eq]
  have hperm : ((check_phase_outputs beh m e1 o1).1).Perm
      ((check_phase_outputs beh m e2 o2).1) := by
    rw [ha, hb]
    exact (h1.trans h2.symm).map (check_row beh m)
  exact ⟨hperm, fun p => hperm.count_eq _⟩

/-- C7 witness at a concrete input: two runs with opposite completion
orders and different stopwatch readings produce permutation-equal row
lists. -/
theorem c7_witness :
    ((check_phase_outputs (fun _ => Except.ok ⟨true, true⟩) TODMethod.approximation
      (fun _ => 1) [("0xa", "0xb"), ("0xc", "0xd")]).1).Perm
    ((check_phase_outputs (fun _ => Except.ok ⟨true, true⟩) TODMethod.approximation
      (fun _ => 2) [("0xc", "0xd"), ("0xa", "0xb")]).1) :=
  (c7_rerun_same_verdicts [("0xa", "0xb"), ("0xc", "0xd")]
    [("0xa", "0xb"), ("0xc", "0xd")] [("0xc", "0xd"), ("0xa", "0xb")]
    (fun _ => Except.ok ⟨true, true⟩) TODMethod.approximation
    (fun _ => 1) (fun _ => 2) (by decide) (by decide)).1

/-- C4: every entered timing scope (step or component) appends exactly one
record on exit, whether the measured body returned normally or raised —
the new ledger is the old one plus exactly the row of that scope. -/
theorem c4_one_record_per_scope (t : TimeTrackerState) (c s : String) (ms : Nat)
    (v : Nat) (e : PyExn) :
    ((with_step_scope t c s ms (Except.ok v)).2.rows =
      t.rows ++ [⟨"step", c, s, ms⟩]) ∧
    ((with_step_scope t c s ms (Except.error e : Except PyExn Nat)).2.rows =
      t.rows ++ [⟨"step", c, s, ms⟩]) ∧
    ((with_component_scope t c ms (Except.ok v)).2.rows =
      t.rows ++ [⟨"component", c, "", ms⟩]) ∧
    ((with_component_scope t c ms (Except.error e : Except PyExn Nat)).2.rows =
      t.rows ++ [⟨"component", c, "", ms⟩]) :=
  ⟨rfl, rfl, rfl, rfl⟩

/-- C10: timing scopes never suppress exceptions — `__exit__` appends its
record and returns `False`, so the outcome of the scope is exactly that of
the body; in particular the exception of a raising body propagates unchanged. -/
theorem c10_scopes_propagate_exceptions (t : TimeTrackerState) (c s : String)
    (ms : Nat) (e : PyExn) :
    ((with_step_scope t c s ms (Except.error e : Except PyExn Nat)).1 =
      Except.error e) ∧
    ((with_component_scope t c ms (Except.error e : Except PyExn Nat)).1 =
      Except.error e) ∧
    (∀ body : Except PyExn Nat, (with_step_scope t c s ms body).1 = body) ∧
    (∀ body : Except PyExn Nat, (with_component_scope t c ms body).1 = body) :=
  ⟨rfl, rfl, fun _ => rfl, fun _ => rfl⟩

/-- C5: for every pair processed by the properties stage, a CSV row is
written iff all five sub-results are present; when a sub-check throws, no
row is written but the JSONL line carries `details = null` and the caught
exception as the failure — and the stage still writes one JSONL line per
input pair, so subsequent pairs are processed. -/
theorem c5_properties_row_iff_all_succeeded (beh : PropBehavior) (a b : String)
    (ms : Nat) :
    ((prop_row_of (candidate_properties_result beh a b ms)).isSome = true ↔
      ((candidate_properties_result beh a b ms).gain_and_loss.isSome = true ∧
       (candidate_properties_result beh a b ms).gain_and_loss_approximation.isSome = true ∧
       (candidate_properties_result beh a b ms).securify_tx_a.isSome = true ∧
       (candidate_properties_result beh a b ms).securify_tx_b.isSome = true ∧
       (candidate_properties_result beh a b ms).erc20_approval.isSome = true)) ∧
    (∀ e, prop_first_error beh = some e →
      prop_row_of (candidate_properties_result beh a b ms) = none ∧
      prop_detail_of (candidate_properties_result beh a b ms) = ⟨a, b, none, some e⟩) ∧
    (prop_first_error beh = none →
      (prop_row_of (candidate_properties_result beh a b ms)).isSome = true) ∧
    (∀ (behs : TxPair → PropBehavior) (els : TxPair → Nat) (order : List TxPair),
      (properties_phase behs els order).isOk = true ∧
      (properties_outputs behs els order).2.length = order.length) := by
  obtain ⟨su, gla, gl, sa, sb, ap⟩ := beh
  refine ⟨?_, ?_, ?_, ?_⟩
  · cases su <;> cases gla <;> cases gl <;> cases sa <;> cases sb <;> cases ap <;>
      simp [candidate_properties_result, prop_row_of]
  · intro e he
    cases su <;> cases gla <;> cases gl <;> cases sa <;> cases sb <;> cases ap <;>
      simp_all [prop_first_error, candidate_properties_result, prop_row_of, prop_detail_of]
  · intro he
    cases su <;> cases gla <;> cases gl <;> cases sa <;> cases sb <;> cases ap <;>
      simp_all [prop_first_error, candidate_properties_result, prop_row_of]
  · intro behs els order
    constructor
    · rw [properties_phase_eq]; rfl
    · simp [properties_outputs, properties_phase_eq]

/-- C5 witness at a concrete input: the scenario of the spec — the ERC-20
approval check throws, so no CSV row is produced but the JSONL line is
written with null details and the exception as failure. -/
theorem c5_witness :
    prop_row_of (candidate_properties_result erc20_failure_behavior "0xa" "0xb" 3) =
      none ∧
    prop_detail_of (candidate_properties_result erc20_failure_behavior "0xa" "0xb" 3) =
      ⟨"0xa", "0xb", none, some (PyExn.generic "erc20 approval check failed")⟩ :=
  (c5_properties_row_iff_all_succeeded erc20_failure_behavior "0xa" "0xb" 3).2.1
    (PyExn.generic "erc20 approval check failed") rfl

/-- C6: `block_range_type` parses "100-200" to `BlockRange(100, 200)` and
"0x10-0x20" to `BlockRange(16, 32)` (decimal or 0x-hex per side), rejects
"200-100" with the argument-type error, and every accepted `BlockRange`
satisfies `start ≤ end`. -/
theorem c6_block_range :
    block_range_type "100-200" = .ok ⟨100, 200⟩ ∧
    block_range_type "0x10-0x20" = .ok ⟨16, 32⟩ ∧
    block_range_type "200-100" =
      .error "Invalid block range: start may not be higher than end" ∧
    ∀ s r, block_range_type s = .ok r → r.start ≤ r.end_ := by
  refine ⟨by rfl, by rfl, by rfl, ?_⟩
  intro s r h
  unfold block_range_type at h
  split at h
  · next s1 e1 =>
    unfold parse_bounds at h
    split at h
    · next a bb _ _ =>
      split at h
      · cases h
      · next hgt =>
        cases h
        simpa using Nat.le_of_not_lt hgt
    · cases h
  · cases h

/-- C6 witness at a concrete input: the invariant applied to the parse of
"100-200". -/
theorem c6_witness : (100 : Nat) ≤ 200 :=
  c6_block_range.2.2.2 "100-200" ⟨100, 200⟩ (by rfl)

/-- Every prefetch event precedes the selection point: no event of the
prefetch pass is a checking event. -/
theorem prefetch_events_not_check (blockOf : String → Nat) (pairs : List TxPair) :
    ∀ e ∈ prefetch_events blockOf pairs, e.isCheckPhase = false := by
  intro e he
  unfold prefetch_events at he
  rcases List.mem_append.mp he with h1 | h1 <;>
    · obtain ⟨x, _, rfl⟩ := List.mem_map.mp h1
      rfl

/-- C8: in the check stage, each distinct transaction hash is downloaded
exactly once, the state changes of each owning block are fetched exactly once
(deduplicated across the pairs sharing it), and every prefetch event comes
strictly before every parallel-phase checking event. -/
theorem c8_prefetch_dedup_before_check (blockOf : String → Nat)
    (pairs order : List TxPair) :
    (∀ h, (check_stage_events blockOf pairs order).count (CheckEv.downloadTx h) =
      if h ∈ flatten_pairs pairs then 1 else 0) ∧
    (∀ b, (check_stage_events blockOf pairs order).count (CheckEv.fetchBlock b) =
      if b ∈ (flatten_pairs pairs).dedup.map blockOf then 1 else 0) ∧
    (∀ i j, j < (check_stage_events blockOf pairs order).length →
      ((check_stage_events blockOf pairs order).getD i
        (CheckEv.downloadTx "")).isCheckPhase = true →
      ((check_stage_events blockOf pairs order).getD j
        (CheckEv.downloadTx "")).isCheckPhase = false →
      j < i) := by
  have hinjD : Function.Injective CheckEv.downloadTx := fun x y hxy => by
    injection hxy
  have hinjB : Function.Injective CheckEv.fetchBlock := fun x y hxy => by
    injection hxy
  refine ⟨?_, ?_, ?_⟩
  · intro h
    have h1 : ((flatten_pairs pairs).dedup.map CheckEv.downloadTx).count
        (CheckEv.downloadTx h) = if h ∈ flatten_pairs pairs then 1 else 0 := by
      rw [List.count_map_of_injective _ _ hinjD, List.count_dedup]
    have h2 : ((((flatten_pairs pairs).dedup.map blockOf).dedup).map
        CheckEv.fetchBlock).count (CheckEv.downloadTx h) = 0 :=
      List.count_eq_zero_of_not_mem (by simp)
    have h3 : ((order.map fun p : TxPair => CheckEv.checkPair p.1 p.2).count
        (CheckEv.downloadTx h)) = 0 :=
      List.count_eq_zero_of_not_mem (by simp)
    show (((flatten_pairs pairs).dedup.map CheckEv.downloadTx ++
        (((flatten_pairs pairs).dedup.map blockOf).dedup).map CheckEv.fetchBlock) ++
        order.map fun p : TxPair => CheckEv.checkPair p.1 p.2).count
        (CheckEv.downloadTx h) = if h ∈ flatten_pairs pairs then 1 else 0
    rw [List.count_append, List.count_append, h1, h2, h3]
    simp
  · intro b
    have h1 : ((flatten_pairs pairs).dedup.map CheckEv.downloadTx).count
        (CheckEv.fetchBlock b) = 0 :=
      List.count_eq_zero_of_not_mem (by simp)
    have h2 : ((((flatten_pairs pairs).dedup.map blockOf).dedup).map
        CheckEv.fetchBlock).count (CheckEv.fetchBlock b) =
        if b ∈ (flatten_pairs pairs).dedup.map blockOf then 1 else 0 := by
      rw [List.count_map_of_injective _ _ hinjB, List.count_dedup]
    have h3 : ((order.map fun p : TxPair => CheckEv.checkPair p.1 p.2).count
        (CheckEv.fetchBlock b)) = 0 :=
      List.count_eq_zero_of_not_mem (by simp)
    show (((flatten_pairs pairs).dedup.map CheckEv.downloadTx ++
        (((flatten_pairs pairs).dedup.map blockOf).dedup).map CheckEv.fetchBlock) ++
        order.map fun p : TxPair => CheckEv.checkPair p.1 p.2).count
        (CheckEv.fetchBlock b) = if b ∈ (flatten_pairs pairs).dedup.map blockOf then 1 else 0
    rw [List.count_append, List.count_append, h1, h2, h3]
    simp
  · intro i j hj hci hpj
    have hC : ∀ e ∈ order.map (fun p : TxPair => CheckEv.checkPair p.1 p.2),
        e.isCheckPhase = true := by
      intro e he
      obtain ⟨x, _, rfl⟩ := List.mem_map.mp he
      rfl
    have hP := prefetch_events_not_check blockOf pairs
    have hlenE : (check_stage_events blockOf pairs order).length =
        (prefetch_events blockOf pairs).length +
          (order.map (fun p : TxPair => CheckEv.checkPair p.1 p.2)).length := by
      unfold check_stage_events
      exact List.length_append _ _
    have hPi : (prefetch_events blockOf pairs).length ≤ i := by
      by_contra hlt
      push_neg at hlt
      have hgd : (check_stage_events blockOf pairs order).getD i (CheckEv.downloadTx "") =
          (prefetch_events blockOf pairs).getD i (CheckEv.downloadTx "") := by
        unfold check_stage_events
        exact List.getD_append _ _ _ _ hlt
      rw [hgd, List.getD_eq_getElem _ _ hlt] at hci
      have := hP _ (List.getElem_mem hlt)
      rw [this] at hci
      cases hci
    have hjP : j < (prefetch_events blockOf pairs).length := by
      by_contra hge
      push_neg at hge
      have hj2 : j - (prefetch_events blockOf pairs).length <
          (order.map (fun p : TxPair => CheckEv.checkPair p.1 p.2)).length := by
        rw [hlenE] at hj
        omega
      have hgd : (check_stage_events blockOf pairs order).getD j (CheckEv.downloadTx "") =
          (order.map (fun p : TxPair => CheckEv.checkPair p.1 p.2)).getD
            (j - (prefetch_events blockOf pairs).length) (CheckEv.downloadTx "") := by
        unfold check_stage_events
        exact List.getD_append_right _ _ _ _ hge
      rw [hgd, List.getD_eq_getElem _ _ hj2] at hpj
      have := hC _ (List.getElem_mem hj2)
      rw [this] at hpj
      cases hpj
    omega

/-- C8 witness at a concrete input: one pair, its two hashes in one block;
the checking event (index 3) comes after the prefetch event (index 0). -/
theorem c8_witness : (0 : Nat) < 3 :=
  (c8_prefetch_dedup_before_check (fun _ => 0) [("0xa", "0xb")]
    [("0xa", "0xb")]).2.2 3 0 (by decide) (by decide) (by decide)

/-- The `trace_analyze` pool contributes no stage markers. -/
theorem trace_pool_stage_markers (n : Nat) (tods : List TxPair) :
    (trace_analyze_pool_events n tods).filterMap stage_of = [] := by
  induction tods generalizing n with
  | nil => rfl
  | cons p rest ih => simp [trace_analyze_pool_events, stage_of, ih]

/-- The `trace_analyze` pool calls `create_checker` once per item. -/
theorem trace_pool_create_count (n : Nat) (tods : List TxPair) :
    (trace_analyze_pool_events n tods).countP is_create_checker = tods.length := by
  induction tods generalizing n with
  | nil => rfl
  | cons p rest ih => simp [trace_analyze_pool_events, is_create_checker, ih]

/-- The checker ids used by the `trace_analyze` pool items are the fresh
ids `n, n+1, ...`, one per item. -/
theorem trace_pool_use_ids (n : Nat) (tods : List TxPair) :
    (trace_analyze_pool_events n tods).filterMap trace_use_id =
      List.range' n tods.length := by
  induction tods generalizing n with
  | nil => rfl
  | cons p rest ih =>
      simp [trace_analyze_pool_events, trace_use_id, ih, List.range'_succ]

/-- C9 (amended): the chained `run` command executes mine, then check,
then the combined trace+analyze stage, then stats; `create_checker` is
called once by `run_command` itself (id 0) and that instance is handed to
the check stage, while every `trace_analyze` pool item constructs its own
fresh checker (ids `1..N`), so the total number of checker constructions is
`1 + N` for `N` TOD pairs. -/
theorem c9_amended_run_order (tods : List TxPair) :
    ((run_command_events tods).filterMap stage_of =
      [StageName.mine, StageName.check, StageName.traceAnalyze, StageName.stats]) ∧
    ((run_command_events tods).countP is_create_checker = 1 + tods.length) ∧
    (RunEv.useChecker StageName.check 0 ∈ run_command_events tods) ∧
    ((run_command_events tods).filterMap trace_use_id =
      List.range' 1 tods.length) := by
  refine ⟨?_, ?_, ?_, ?_⟩
  · simp [run_command_events, trace_pool_stage_markers, stage_of]
  · simp [run_command_events, trace_pool_create_count, is_create_checker,
      Nat.add_comm]
  · simp [run_command_events]
  · simp [run_command_events, trace_pool_use_ids, trace_use_id, stage_of]

/-- C9 (counterexample to the claim as stated): with a single TOD pair, the
stage sequence of `run` is mine, check, trace+analyze, stats — there is no
properties stage — and `create_checker` is called twice (once by
`run_command`, once by the pool item), not once. -/
theorem c9_claim_counterexample :
    ((run_command_events [("0xa", "0xb")]).filterMap stage_of ≠
      [StageName.mine, StageName.check, StageName.properties, StageName.stats]) ∧
    (run_command_events [("0xa", "0xb")]).countP is_create_checker ≠ 1 := by
  decide
